import Mathlib

/-!
Verification development for the PointZero Designs order-intake service.

The definitions below are a shallow embedding of the TypeScript sources:
  - `analyze3DModel`, `formatPrintTime` and the Express route handlers from
    the server routes module;
  - `insertOrderSchema` from shared/schema.ts (the zod insert schema);
  - `orderFormSchema` from the client order form component;
  - `MemStorage` (getOrder, createOrder, updateOrder) from server/storage.ts.

Modelling conventions:
  - JavaScript numbers are embedded as rationals; byte sizes and timestamps
    as naturals.  Monetary and weight values produced by the code are exact
    multiples of 1/100 after the two-decimal rounding the code performs.
  - Drizzle decimal columns are strings at the TypeScript level; the
    embedding keeps them as `Option String` exactly as in the source.
  - `undefined`/`null` are embedded as `none`; the JavaScript truthiness
    tests the code performs on strings (empty string is falsy) are embedded
    by the explicit helpers below.
  - `randomUUID()` and `new Date()` are external effects; they enter the
    embedding as explicit parameters (`id`, `now`) of the operations.
-/

namespace PointZero

/-- JavaScript truthiness of an optional string: `undefined` and the empty
string are falsy, every other string is truthy. -/
def jsTruthy : Option String → Bool
  | none => false
  | some s => !(s = "")

/-- Embeds the JavaScript idiom `x || null` applied to an optional string:
absent or empty strings become `null`, anything else is kept. -/
def jsOrNull : Option String → Option String
  | none => none
  | some s => if s = "" then none else some s

/-- Embeds the JavaScript idiom `x || d` on an optional string: absent or
empty strings are replaced by the default `d`. -/
def jsOrDefault (x : Option String) (d : String) : String :=
  match x with
  | none => d
  | some s => if s = "" then d else s

/-- Embeds the JavaScript idiom `x || false` on an optional boolean. -/
def jsOrFalse (x : Option Bool) : Bool :=
  x.getD false

/-! ## Decimal rendering and reading

The server converts the numbers it computes to strings with
`Number.prototype.toString` and `toFixed(2)`.  Every number the routes
convert is a nonnegative exact multiple of 1/100, for which `toString`
prints the shortest decimal form ("5", "6.3", "8.75").  The printer and
parser below realise exactly that fragment; the parser reads such a string
back as an exact count of cents. -/

/-- Decimal digit characters of a natural number, most significant first. -/
def natToChars (n : ℕ) : List Char :=
  if n < 10 then [Char.ofNat (48 + n)]
  else natToChars (n / 10) ++ [Char.ofNat (48 + n % 10)]
termination_by n
decreasing_by simp_wf; omega

/-- Reads a decimal digit character back as a digit value. -/
def charDigit (c : Char) : Option ℕ :=
  if 48 ≤ c.toNat ∧ c.toNat ≤ 57 then some (c.toNat - 48) else none

/-- Accumulating decimal reader over a list of characters. -/
def parseDigitsAux (acc : ℕ) : List Char → Option ℕ
  | [] => some acc
  | c :: cs =>
    match charDigit c with
    | some d => parseDigitsAux (acc * 10 + d) cs
    | none => none

/-- Reads a list of decimal digit characters as a natural number. -/
def parseNatChars (l : List Char) : Option ℕ :=
  parseDigitsAux 0 l

/-- Splits a character list at the first dot, if any. -/
def splitAtDot : List Char → List Char × Option (List Char)
  | [] => ([], none)
  | c :: cs =>
    if c = '.' then ([], some cs)
    else
      let p := splitAtDot cs
      (c :: p.1, p.2)

/-- Shortest decimal character rendering of `k` cents: the integer part,
then a fractional part of one or two digits with trailing zeros dropped,
as JavaScript prints a nonnegative two-decimal number. -/
def decimalChars (k : ℕ) : List Char :=
  let i := k / 100
  let f := k % 100
  if f = 0 then natToChars i
  else if f % 10 = 0 then natToChars i ++ ('.' :: natToChars (f / 10))
  else if f < 10 then natToChars i ++ ('.' :: '0' :: natToChars f)
  else natToChars i ++ ('.' :: natToChars f)

/-- `Number.prototype.toString` restricted to the values the routes print:
nonnegative rationals that are exact multiples of 1/100.  The floor of
`q * 100 + 1/2` merely extracts the exact count of cents for such values. -/
def jsNumToString (q : ℚ) : String :=
  ⟨decimalChars (⌊q * 100 + 1/2⌋).toNat⟩

/-- Reads a nonnegative decimal character list with at most two fractional
digits as an exact count of cents; anything else is rejected. -/
def parseDecCentsChars (l : List Char) : Option ℕ :=
  match splitAtDot l with
  | (ip, none) => (parseNatChars ip).map (· * 100)
  | (ip, some fp) =>
    match parseNatChars ip, parseNatChars fp with
    | some i, some f =>
      if fp.length = 1 then some (i * 100 + f * 10)
      else if fp.length = 2 then some (i * 100 + f)
      else none
    | _, _ => none

/-- Reads a nonnegative decimal string with at most two fractional digits
as an exact count of cents. -/
def parseDecCents (s : String) : Option ℕ :=
  parseDecCentsChars s.data

/-! ## Estimator -/

/-- Rounding to two decimal places, half away from zero on the nonnegative
values the estimator produces; embeds `parseFloat(x.toFixed(2))`. -/
def round2 (q : ℚ) : ℚ :=
  (⌊q * 100 + 1/2⌋ : ℚ) / 100

/-- Result record of the mock 3D model analysis. -/
structure ModelAnalysis where
  weight : ℚ
  printTime : String
  baseCost : ℚ
  deriving DecidableEq

/-- Embeds `formatPrintTime`: hours via `Math.floor(minutes / 60)`, minutes
via `Math.floor(minutes % 60)` (the JavaScript remainder agrees with the
expression below on the nonnegative inputs the estimator produces). -/
def formatPrintTime (minutes : ℚ) : String :=
  let hours : ℤ := ⌊minutes / 60⌋
  let mins : ℤ := ⌊minutes - 60 * (hours : ℚ)⌋
  toString hours ++ "h " ++ toString mins ++ "m"

/-- Embeds `analyze3DModel` from the server routes module: piecewise-linear
weight from the file size in megabytes, print time from the unrounded
weight, base cost a quarter dollar per gram, weight and cost rounded to two
decimals in the returned record. -/
def analyze3DModel (fileSize : ℕ) : ModelAnalysis :=
  let fileSizeMB : ℚ := (fileSize : ℚ) / (1024 * 1024)
  let estimatedWeight : ℚ :=
    if fileSizeMB < 1 then max 5 (fileSizeMB * 20)
    else if fileSizeMB < 5 then 20 + (fileSizeMB - 1) * 15
    else 80 + (fileSizeMB - 5) * 10
  let printTimeMinutes : ℚ := max 30 (estimatedWeight * 1.5 + fileSizeMB * 20)
  { weight := round2 estimatedWeight
    printTime := formatPrintTime printTimeMinutes
    baseCost := round2 (estimatedWeight * 0.25) }

/-! ## Specification-side estimator formulas

These definitions follow the wording of the specification (piecewise weight
law, print-time law, hour/minute formatting by integer floor division and
modulo by 60); they are compared against `analyze3DModel` above. -/

/-- The specification's piecewise-linear weight law over megabytes. -/
def specWeight (s : ℚ) : ℚ :=
  if s < 1 then max 5 (s * 20)
  else if 1 ≤ s ∧ s < 5 then 20 + (s - 1) * 15
  else 80 + (s - 5) * 10

/-- The specification's print-time law in minutes. -/
def specPrintTimeMinutes (s : ℚ) : ℚ :=
  max 30 (specWeight s * 1.5 + s * 20)

/-- The specification's print-time string: hours and minutes obtained from
the minute total by integer floor division and modulo by 60. -/
def specPrintTimeString (s : ℚ) : String :=
  let total : ℤ := ⌊specPrintTimeMinutes s⌋
  toString (total / 60) ++ "h " ++ toString (total % 60) ++ "m"

/-! ## Data model

Field-for-field embedding of the drizzle `orders` table row type
(`Order = typeof orders.$inferSelect`): columns without `notNull()` are
nullable, so their embedded type is wrapped in `Option`; decimal columns
are strings at the TypeScript level; timestamps are embedded as naturals. -/

/-- A persisted order record. -/
structure Order where
  id : String
  customerName : String
  customerPhone : String
  deliveryMethod : String
  streetAddress : Option String
  city : Option String
  state : Option String
  zipCode : Option String
  modelFileName : Option String
  modelWeight : Option String
  printTime : Option String
  baseCost : Option String
  supportRemoval : Option Bool
  supportCost : Option String
  totalCost : Option String
  status : Option String
  createdAt : Option ℕ
  updatedAt : Option ℕ
  deriving DecidableEq

/-- The insert payload type (`InsertOrder = z.infer<typeof
insertOrderSchema>`): identifier and timestamps are omitted; required
fields are plain strings, the rest optional.  `supportRemoval` and
`supportCost` carry zod defaults, yet the storage layer still guards them
with `|| false` / `|| "0.00"`, so they are kept optional here exactly as
they are at the JavaScript runtime level. -/
structure InsertOrder where
  customerName : String
  customerPhone : String
  deliveryMethod : String
  streetAddress : Option String
  city : Option String
  state : Option String
  zipCode : Option String
  modelFileName : Option String
  modelWeight : Option String
  printTime : Option String
  baseCost : Option String
  supportRemoval : Option Bool
  supportCost : Option String
  totalCost : Option String
  status : Option String
  deriving DecidableEq

/-- A `Partial<Order>` patch: every field may be absent; a present field
carries the new value, which for a nullable column may itself be null. -/
structure OrderPatch where
  id : Option String := none
  customerName : Option String := none
  customerPhone : Option String := none
  deliveryMethod : Option String := none
  streetAddress : Option (Option String) := none
  city : Option (Option String) := none
  state : Option (Option String) := none
  zipCode : Option (Option String) := none
  modelFileName : Option (Option String) := none
  modelWeight : Option (Option String) := none
  printTime : Option (Option String) := none
  baseCost : Option (Option String) := none
  supportRemoval : Option (Option Bool) := none
  supportCost : Option (Option String) := none
  totalCost : Option (Option String) := none
  status : Option (Option String) := none
  createdAt : Option (Option ℕ) := none
  updatedAt : Option (Option ℕ) := none
  deriving DecidableEq

/-! ## Order store -/

/-- The in-memory store: the `Map<string, Order>` of `MemStorage`, embedded
as its lookup function. -/
abbrev Store := String → Option Order

/-- `Map.prototype.set`. -/
def Store.set (st : Store) (id : String) (o : Order) : Store :=
  fun k => if k = id then some o else st k

/-- The store a fresh `MemStorage` starts from. -/
def emptyStore : Store := fun _ => none

namespace MemStorage

/-- `MemStorage.getOrder`: exact map lookup. -/
def getOrder (st : Store) (id : String) : Option Order :=
  st id

/-- `MemStorage.createOrder`: builds the full record from the insert
payload — defaulting absent or empty optional strings to null, support
removal to false, support cost to "0.00" — forces status to "pending",
stamps both timestamps with `now`, stores the record under the generated
identifier and returns it. -/
def createOrder (st : Store) (id : String) (now : ℕ) (insertOrder : InsertOrder) :
    Order × Store :=
  let order : Order :=
    { id := id
      customerName := insertOrder.customerName
      customerPhone := insertOrder.customerPhone
      deliveryMethod := insertOrder.deliveryMethod
      streetAddress := jsOrNull insertOrder.streetAddress
      city := jsOrNull insertOrder.city
      state := jsOrNull insertOrder.state
      zipCode := jsOrNull insertOrder.zipCode
      modelFileName := jsOrNull insertOrder.modelFileName
      modelWeight := jsOrNull insertOrder.modelWeight
      printTime := jsOrNull insertOrder.printTime
      baseCost := jsOrNull insertOrder.baseCost
      supportRemoval := some (jsOrFalse insertOrder.supportRemoval)
      supportCost := some (jsOrDefault insertOrder.supportCost "0.00")
      totalCost := jsOrNull insertOrder.totalCost
      status := some "pending"
      createdAt := some now
      updatedAt := some now }
  (order, st.set id order)

/-- `MemStorage.updateOrder`: on a missing identifier returns undefined and
leaves the store alone; otherwise spreads the patch over the existing
record, restamps `updatedAt`, stores and returns the merged record. -/
def updateOrder (st : Store) (id : String) (now : ℕ) (updates : OrderPatch) :
    Option Order × Store :=
  match st id with
  | none => (none, st)
  | some existingOrder =>
    let updatedOrder : Order :=
      { id := updates.id.getD existingOrder.id
        customerName := updates.customerName.getD existingOrder.customerName
        customerPhone := updates.customerPhone.getD existingOrder.customerPhone
        deliveryMethod := updates.deliveryMethod.getD existingOrder.deliveryMethod
        streetAddress := updates.streetAddress.getD existingOrder.streetAddress
        city := updates.city.getD existingOrder.city
        state := updates.state.getD existingOrder.state
        zipCode := updates.zipCode.getD existingOrder.zipCode
        modelFileName := updates.modelFileName.getD existingOrder.modelFileName
        modelWeight := updates.modelWeight.getD existingOrder.modelWeight
        printTime := updates.printTime.getD existingOrder.printTime
        baseCost := updates.baseCost.getD existingOrder.baseCost
        supportRemoval := updates.supportRemoval.getD existingOrder.supportRemoval
        supportCost := updates.supportCost.getD existingOrder.supportCost
        totalCost := updates.totalCost.getD existingOrder.totalCost
        status := updates.status.getD existingOrder.status
        createdAt := updates.createdAt.getD existingOrder.createdAt
        updatedAt := some now }
    (some updatedOrder, st.set id updatedOrder)

end MemStorage

/-! ## Validation schemas -/

/-- The raw multipart body of an order submission: every field arrives as a
string or is absent. -/
structure RawOrderData where
  customerName : Option String := none
  customerPhone : Option String := none
  deliveryMethod : Option String := none
  streetAddress : Option String := none
  city : Option String := none
  state : Option String := none
  zipCode : Option String := none
  modelFileName : Option String := none
  modelWeight : Option String := none
  printTime : Option String := none
  baseCost : Option String := none
  supportRemoval : Option String := none
  supportCost : Option String := none
  totalCost : Option String := none
  status : Option String := none
  deriving DecidableEq

/-- Embeds `insertOrderSchema.parse` from shared/schema.ts, applied to the
spread of the raw body with `supportRemoval` already coerced to a boolean
by the route.  Field rules: non-empty customer name, phone of length at
least ten, delivery method in the two-value enum; the address, model and
pricing strings are optional with no further constraint; `supportCost`
defaults to "0.00" when absent.  There is no cross-field rule here. -/
def insertOrderSchema (d : RawOrderData) (supportRemoval : Bool) :
    Except (List String) InsertOrder :=
  let issues : List String :=
    (match d.customerName with
     | none => ["Customer name is required"]
     | some s => if s.length < 1 then ["Customer name is required"] else []) ++
    (match d.customerPhone with
     | none => ["Valid phone number is required"]
     | some s => if s.length < 10 then ["Valid phone number is required"] else []) ++
    (match d.deliveryMethod with
     | none => ["Invalid enum value"]
     | some s => if s = "delivery" ∨ s = "meetup" then [] else ["Invalid enum value"])
  if issues.isEmpty then
    .ok
      { customerName := d.customerName.getD ""
        customerPhone := d.customerPhone.getD ""
        deliveryMethod := d.deliveryMethod.getD ""
        streetAddress := d.streetAddress
        city := d.city
        state := d.state
        zipCode := d.zipCode
        modelFileName := d.modelFileName
        modelWeight := d.modelWeight
        printTime := d.printTime
        baseCost := d.baseCost
        supportRemoval := some supportRemoval
        supportCost := some (d.supportCost.getD "0.00")
        totalCost := d.totalCost
        status := d.status }
  else .error issues

/-- The typed values of the client order form. -/
structure OrderForm where
  customerName : String
  customerPhone : String
  deliveryMethod : String
  streetAddress : Option String
  city : Option String
  state : Option String
  zipCode : Option String
  supportRemoval : Bool
  deriving DecidableEq

/-- Embeds `orderFormSchema.parse` from the client order form: the same
base field rules as the insert schema plus the refinement that a delivery
order must carry truthy street address and zip code. -/
def orderFormSchema (f : OrderForm) : Except (List String) OrderForm :=
  let issues : List String :=
    (if f.customerName.length < 1 then ["Customer name is required"] else []) ++
    (if f.customerPhone.length < 10 then ["Valid phone number is required"] else []) ++
    (if f.deliveryMethod = "delivery" ∨ f.deliveryMethod = "meetup" then []
     else ["Invalid enum value"]) ++
    (if f.deliveryMethod = "delivery" ∧
        ¬(jsTruthy f.streetAddress ∧ jsTruthy f.zipCode) then
      ["Address information is required for delivery"]
     else [])
  if issues.isEmpty then .ok f else .error issues

/-! ## Route handlers -/

/-- An uploaded multipart file as the routes see it. -/
structure UploadedFile where
  originalname : String
  size : ℕ
  deriving DecidableEq

/-- A JSON response body: either a serialized order or a message object. -/
inductive ResponseBody where
  | order (o : Order)
  | message (s : String)
  deriving DecidableEq

/-- Outcome of `sendOrderEmail`: the external mail collaborator either
delivers or throws. -/
def sendOrderEmail (emailOk : Bool) : Except Unit Unit :=
  if emailOk then .ok () else .error ()

/-- Embeds the POST /api/orders handler.  Parses and validates the body —
a validation failure answers 400 with a message and touches nothing.  With
an uploaded file, the handler records the file name and either trusts the
client-supplied weight / print time / base cost triple verbatim (support
cost defaulting from the support-removal flag, total cost taken from the
client) or, when the triple is not fully supplied, falls back to
`analyze3DModel` and computes support and total cost itself.  It then
persists via `createOrder`, attempts the email — a failure is logged and
swallowed — and answers 200 with the persisted order. -/
def postOrders (st : Store) (freshId : String) (now : ℕ) (orderData : RawOrderData)
    (modelFile : Option UploadedFile) (emailOk : Bool) :
    (ℕ × ResponseBody) × Store :=
  match insertOrderSchema orderData (orderData.supportRemoval == some "true") with
  | .error issues => ((400, .message (String.intercalate "; " issues)), st)
  | .ok validatedOrder =>
    let v : InsertOrder :=
      match modelFile with
      | none => validatedOrder
      | some modelFile =>
        let v1 := { validatedOrder with modelFileName := some modelFile.originalname }
        if jsTruthy orderData.modelWeight && jsTruthy orderData.printTime &&
            jsTruthy orderData.baseCost then
          { v1 with
              modelWeight := orderData.modelWeight
              printTime := orderData.printTime
              baseCost := orderData.baseCost
              supportCost := some (jsOrDefault orderData.supportCost
                (if jsOrFalse v1.supportRemoval then "5.00" else "0.00"))
              totalCost := orderData.totalCost }
        else
          let analysis := analyze3DModel modelFile.size
          let baseCost : ℚ := analysis.baseCost
          let supportCost : ℚ := if jsOrFalse v1.supportRemoval then 5.00 else 0.00
          let totalCost : ℚ := baseCost + supportCost
          { v1 with
              modelWeight := some (jsNumToString analysis.weight)
              printTime := some analysis.printTime
              baseCost := some (jsNumToString analysis.baseCost)
              supportCost := some (jsNumToString supportCost)
              totalCost := some (jsNumToString totalCost) }
    let created := MemStorage.createOrder st freshId now v
    match sendOrderEmail emailOk with
    | .ok _ => ((200, .order created.1), created.2)
    | .error _ => ((200, .order created.1), created.2)

/-- Embeds the GET /api/orders/:id handler. -/
def getOrderById (st : Store) (id : String) : ℕ × ResponseBody :=
  match MemStorage.getOrder st id with
  | none => (404, .message "Order not found")
  | some o => (200, .order o)

/-! ## Derived definitions used by the statements -/

/-- Applies a sequence of timestamped patches to the record under `id`. -/
def applyUpdates (st : Store) (id : String) : List (ℕ × OrderPatch) → Store
  | [] => st
  | u :: rest => applyUpdates (MemStorage.updateOrder st id u.1 u.2).2 id rest

/-- The specification's total-cost law read off a stored record, with the
decimal cost strings read as exact cent counts: the total equals the base
plus five dollars exactly when support removal was requested. -/
def costLawCheck (o : Order) : Bool :=
  (o.totalCost.bind parseDecCents) ==
    (o.baseCost.bind parseDecCents).map
      (fun b => b + (if o.supportRemoval == some true then 500 else 0))

/-- A concrete stored order used by concrete instances. -/
def sampleOrder : Order :=
  { id := "a", customerName := "John Doe", customerPhone := "5551234567",
    deliveryMethod := "meetup", streetAddress := none, city := none, state := none,
    zipCode := none, modelFileName := none, modelWeight := none, printTime := none,
    baseCost := none, supportRemoval := some false, supportCost := some "0.00",
    totalCost := none, status := some "pending", createdAt := some 0, updatedAt := some 0 }

/-- A concrete insert payload used by concrete instances. -/
def sampleInsert : InsertOrder :=
  { customerName := "John Doe", customerPhone := "5551234567",
    deliveryMethod := "meetup", streetAddress := none, city := none, state := none,
    zipCode := none, modelFileName := none, modelWeight := none, printTime := none,
    baseCost := none, supportRemoval := none, supportCost := none,
    totalCost := none, status := none }

/-- A delivery submission with an empty street address. -/
def c2payload : RawOrderData :=
  { customerName := some "John Doe", customerPhone := some "5551234567",
    deliveryMethod := some "delivery", streetAddress := some "" }

/-- A submission carrying client-computed pricing with an inflated total. -/
def c1payload : RawOrderData :=
  { customerName := some "John Doe", customerPhone := some "5551234567",
    deliveryMethod := some "meetup", modelWeight := some "35",
    printTime := some "1h 0m", baseCost := some "8.75", totalCost := some "999.99" }

/-! ## Estimator lemmas -/

lemma floor_div_sixty (q : ℚ) : ⌊q / 60⌋ = ⌊q⌋ / 60 := by
  have h1 : (⌊q⌋ : ℚ) ≤ q := Int.floor_le q
  have h2 : q < ⌊q⌋ + 1 := Int.lt_floor_add_one q
  have h3 : 60 * (⌊q⌋ / 60) ≤ ⌊q⌋ := by omega
  have h4 : ⌊q⌋ + 1 ≤ 60 * (⌊q⌋ / 60) + 60 := by omega
  rw [Int.floor_eq_iff]
  constructor
  · rw [le_div_iff₀ (by norm_num : (0:ℚ) < 60)]
    have h5 : ((60 * (⌊q⌋ / 60) : ℤ) : ℚ) ≤ (⌊q⌋ : ℚ) := by exact_mod_cast h3
    push_cast at h5 ⊢
    linarith
  · rw [div_lt_iff₀ (by norm_num : (0:ℚ) < 60)]
    have h5 : ((⌊q⌋ + 1 : ℤ) : ℚ) ≤ ((60 * (⌊q⌋ / 60) + 60 : ℤ) : ℚ) := by exact_mod_cast h4
    push_cast at h5 ⊢
    linarith

lemma formatPrintTime_eq (M : ℚ) :
    formatPrintTime M = toString (⌊M⌋ / 60) ++ "h " ++ toString (⌊M⌋ % 60) ++ "m" := by
  simp only [formatPrintTime]
  have hcast : (60 : ℚ) * ((⌊M / 60⌋ : ℤ) : ℚ) = ((60 * ⌊M / 60⌋ : ℤ) : ℚ) := by push_cast; ring
  rw [hcast, Int.floor_sub_int, floor_div_sixty]
  have hm : ⌊M⌋ - 60 * (⌊M⌋ / 60) = ⌊M⌋ % 60 := by omega
  rw [hm]

lemma specWeight_eq_code (s : ℚ) :
    (if s < 1 then max 5 (s * 20)
     else if s < 5 then 20 + (s - 1) * 15
     else 80 + (s - 5) * 10) = specWeight s := by
  unfold specWeight
  by_cases h1 : s < 1
  · simp [h1]
  · by_cases h2 : s < 5
    · simp [h1, h2, not_lt.mp h1]
    · simp [h1, h2]

lemma analyze3DModel_eq (n : ℕ) :
    analyze3DModel n =
      { weight := round2 (specWeight ((n : ℚ) / 1048576))
        printTime := specPrintTimeString ((n : ℚ) / 1048576)
        baseCost := round2 (specWeight ((n : ℚ) / 1048576) * 0.25) } := by
  have hmb : ((n : ℚ) / (1024 * 1024)) = (n : ℚ) / 1048576 := by norm_num
  simp only [analyze3DModel, hmb, specWeight_eq_code]
  simp only [specPrintTimeString, specPrintTimeMinutes, formatPrintTime_eq]

/-! ## Decimal printer / parser lemmas -/

lemma charDigit_digit (d : ℕ) (h : d < 10) : charDigit (Char.ofNat (48 + d)) = some d := by
  interval_cases d <;> rfl

lemma charDigit_dot : charDigit '.' = none := rfl

lemma natToChars_ne_nil (n : ℕ) : natToChars n ≠ [] := by
  rw [natToChars.eq_def]
  split <;> simp

lemma natToChars_all_digits (n : ℕ) : ∀ c ∈ natToChars n, (charDigit c).isSome := by
  induction n using Nat.strong_induction_on with
  | _ n ih =>
    rw [natToChars.eq_def]
    by_cases h : n < 10
    · simp only [if_pos h]
      intro c hc
      simp only [List.mem_singleton] at hc
      subst hc
      simp [charDigit_digit n h]
    · simp only [if_neg h]
      intro c hc
      rcases List.mem_append.mp hc with hc | hc
      · exact ih (n / 10) (Nat.div_lt_self (by omega) (by omega)) c hc
      · simp only [List.mem_singleton] at hc
        subst hc
        simp [charDigit_digit _ (Nat.mod_lt n (by omega))]

lemma natToChars_no_dot (n : ℕ) : ∀ c ∈ natToChars n, c ≠ '.' := by
  intro c hc he
  have hd := natToChars_all_digits n c hc
  rw [he, charDigit_dot] at hd
  simp at hd

lemma splitAtDot_no_dot (l : List Char) (h : ∀ c ∈ l, c ≠ '.') : splitAtDot l = (l, none) := by
  induction l with
  | nil => rfl
  | cons c cs ih =>
    simp only [splitAtDot]
    rw [if_neg (h c (by simp)), ih (fun x hx => h x (by simp [hx]))]

lemma splitAtDot_append_dot (a b : List Char) (h : ∀ c ∈ a, c ≠ '.') :
    splitAtDot (a ++ '.' :: b) = (a, some b) := by
  induction a with
  | nil => simp [splitAtDot]
  | cons c cs ih =>
    simp only [List.cons_append, splitAtDot, List.append_eq]
    rw [if_neg (h c (by simp)), ih (fun x hx => h x (by simp [hx]))]

lemma parseDigitsAux_append (acc : ℕ) (xs ys : List Char) :
    parseDigitsAux acc (xs ++ ys) =
      (parseDigitsAux acc xs).bind (fun a => parseDigitsAux a ys) := by
  induction xs generalizing acc with
  | nil => rfl
  | cons c cs ih =>
    simp only [List.cons_append, parseDigitsAux]
    cases h : charDigit c with
    | none => rfl
    | some d => exact ih _

lemma parseDigitsAux_natToChars (n : ℕ) :
    ∀ acc, parseDigitsAux acc (natToChars n) = some (acc * 10 ^ (natToChars n).length + n) := by
  induction n using Nat.strong_induction_on with
  | _ n ih =>
    intro acc
    rw [natToChars.eq_def]
    by_cases h : n < 10
    · simp only [if_pos h]
      simp [parseDigitsAux, charDigit_digit n h]
    · simp only [if_neg h]
      rw [parseDigitsAux_append, ih (n / 10) (Nat.div_lt_self (by omega) (by omega))]
      have hmod := Nat.div_add_mod n 10
      simp only [parseDigitsAux, charDigit_digit _ (Nat.mod_lt n (by omega)),
        List.length_append, List.length_singleton, Option.bind]
      rw [pow_succ]
      ring_nf
      simp only [Option.some.injEq]
      omega

lemma parseNatChars_natToChars (n : ℕ) : parseNatChars (natToChars n) = some n := by
  unfold parseNatChars
  rw [parseDigitsAux_natToChars]
  simp

lemma natToChars_length_one (n : ℕ) (h : n < 10) : (natToChars n).length = 1 := by
  rw [natToChars.eq_def, if_pos h]
  rfl

lemma natToChars_length_two (n : ℕ) (h1 : 10 ≤ n) (h2 : n < 100) : (natToChars n).length = 2 := by
  rw [natToChars.eq_def, if_neg (by omega)]
  simp [natToChars_length_one (n / 10) (by omega)]

lemma parseNatChars_zero_cons (l : List Char) :
    parseNatChars ('0' :: l) = parseNatChars l := by
  unfold parseNatChars
  simp only [parseDigitsAux]
  norm_num [show charDigit '0' = some 0 from rfl]

lemma parseDecCentsChars_decimalChars (k : ℕ) :
    parseDecCentsChars (decimalChars k) = some k := by
  have hf : k % 100 < 100 := Nat.mod_lt k (by omega)
  have hk := Nat.div_add_mod k 100
  unfold decimalChars parseDecCentsChars
  by_cases h0 : k % 100 = 0
  · simp only [h0, if_true, if_pos rfl]
    rw [splitAtDot_no_dot _ (natToChars_no_dot _)]
    simp [parseNatChars_natToChars]
    omega
  · simp only [if_neg h0]
    by_cases h10 : k % 100 % 10 = 0
    · simp only [if_pos h10]
      rw [splitAtDot_append_dot _ _ (natToChars_no_dot _)]
      have hlen : (natToChars (k % 100 / 10)).length = 1 :=
        natToChars_length_one _ (by omega)
      simp [parseNatChars_natToChars, hlen]
      omega
    · simp only [if_neg h10]
      by_cases hlt : k % 100 < 10
      · simp only [if_pos hlt]
        rw [splitAtDot_append_dot _ _ (natToChars_no_dot _)]
        have hlen : ('0' :: natToChars (k % 100)).length = 2 := by
          simp [natToChars_length_one _ hlt]
        simp [parseNatChars_zero_cons, parseNatChars_natToChars, hlen]
        omega
      · simp only [if_neg hlt]
        rw [splitAtDot_append_dot _ _ (natToChars_no_dot _)]
        have hlen : (natToChars (k % 100)).length = 2 :=
          natToChars_length_two _ (by omega) hf
        simp [parseNatChars_natToChars, hlen]
        omega

lemma parseDecCents_decimalChars (k : ℕ) :
    parseDecCents ⟨decimalChars k⟩ = some k :=
  parseDecCentsChars_decimalChars k

lemma parseDecCents_jsNumToString (k : ℕ) :
    parseDecCents (jsNumToString ((k : ℚ) / 100)) = some k := by
  unfold jsNumToString
  have h1 : ((k : ℚ) / 100) * 100 + 1/2 = (k : ℚ) + 1/2 := by
    rw [div_mul_cancel₀ _ (by norm_num : (100:ℚ) ≠ 0)]
  rw [h1]
  have h2 : ⌊(k : ℚ) + 1/2⌋ = k := by
    rw [Int.floor_nat_add]
    norm_num
  rw [h2, Int.toNat_natCast]
  exact parseDecCents_decimalChars k

lemma decimalChars_ne_nil (k : ℕ) : decimalChars k ≠ [] := by
  simp only [decimalChars]
  split_ifs <;> simp [natToChars_ne_nil]

lemma jsNumToString_ne_empty (q : ℚ) : jsNumToString q ≠ "" := by
  unfold jsNumToString
  intro h
  exact decimalChars_ne_nil _ (congrArg String.data h)


/-! ## Truthiness lemmas -/

lemma jsOrNull_eq_none_of_falsy (x : Option String) (h : jsTruthy x = false) :
    jsOrNull x = none := by
  cases x with
  | none => rfl
  | some s =>
    simp [jsTruthy] at h
    simp [jsOrNull, h]

lemma jsOrNull_ne_some_empty (x : Option String) : jsOrNull x ≠ some "" := by
  cases x with
  | none => simp [jsOrNull]
  | some s =>
    by_cases h : s = "" <;> simp [jsOrNull, h]

lemma jsOrDefault_eq_of_falsy (x : Option String) (d : String) (h : jsTruthy x = false) :
    jsOrDefault x d = d := by
  cases x with
  | none => rfl
  | some s =>
    simp [jsTruthy] at h
    simp [jsOrDefault, h]

/-! ## Claim theorems -/

/-- C4: after `create(draft)` returns an order with identifier `id`, a
subsequent `get(id)` returns exactly the created record; the record carries
the generated identifier, status "pending", equal creation and update
timestamps, and every optional field not supplied in the draft defaulted
(null for the optional strings, false for support removal, "0.00" for
support cost). -/
theorem create_get_roundtrip (st : Store) (id : String) (now : ℕ) (ins : InsertOrder) :
    MemStorage.getOrder (MemStorage.createOrder st id now ins).2 id =
      some (MemStorage.createOrder st id now ins).1 ∧
    (MemStorage.createOrder st id now ins).1.id = id ∧
    (MemStorage.createOrder st id now ins).1.status = some "pending" ∧
    (MemStorage.createOrder st id now ins).1.createdAt = some now ∧
    (MemStorage.createOrder st id now ins).1.updatedAt = some now ∧
    (ins.streetAddress = none → (MemStorage.createOrder st id now ins).1.streetAddress = none) ∧
    (ins.city = none → (MemStorage.createOrder st id now ins).1.city = none) ∧
    (ins.state = none → (MemStorage.createOrder st id now ins).1.state = none) ∧
    (ins.zipCode = none → (MemStorage.createOrder st id now ins).1.zipCode = none) ∧
    (ins.modelFileName = none → (MemStorage.createOrder st id now ins).1.modelFileName = none) ∧
    (ins.modelWeight = none → (MemStorage.createOrder st id now ins).1.modelWeight = none) ∧
    (ins.printTime = none → (MemStorage.createOrder st id now ins).1.printTime = none) ∧
    (ins.baseCost = none → (MemStorage.createOrder st id now ins).1.baseCost = none) ∧
    (ins.totalCost = none → (MemStorage.createOrder st id now ins).1.totalCost = none) ∧
    (ins.supportRemoval = none →
      (MemStorage.createOrder st id now ins).1.supportRemoval = some false) ∧
    (ins.supportCost = none →
      (MemStorage.createOrder st id now ins).1.supportCost = some "0.00") := by
  simp only [MemStorage.createOrder]
  refine ⟨by simp [MemStorage.getOrder, Store.set], ?_, ?_, ?_, ?_,
    ?_, ?_, ?_, ?_, ?_, ?_, ?_, ?_, ?_, ?_, ?_⟩
  all_goals first | trivial | (intro h; rw [h]; rfl)

/-- Concrete instance of `create_get_roundtrip`. -/
theorem create_get_roundtrip_witness :
    MemStorage.getOrder (MemStorage.createOrder emptyStore "a" 0 sampleInsert).2 "a" =
      some (MemStorage.createOrder emptyStore "a" 0 sampleInsert).1 ∧
    (MemStorage.createOrder emptyStore "a" 0 sampleInsert).1.id = "a" ∧
    (MemStorage.createOrder emptyStore "a" 0 sampleInsert).1.status = some "pending" ∧
    (MemStorage.createOrder emptyStore "a" 0 sampleInsert).1.createdAt = some 0 ∧
    (MemStorage.createOrder emptyStore "a" 0 sampleInsert).1.updatedAt = some 0 ∧
    (sampleInsert.streetAddress = none → (MemStorage.createOrder emptyStore "a" 0 sampleInsert).1.streetAddress = none) ∧
    (sampleInsert.city = none → (MemStorage.createOrder emptyStore "a" 0 sampleInsert).1.city = none) ∧
    (sampleInsert.state = none → (MemStorage.createOrder emptyStore "a" 0 sampleInsert).1.state = none) ∧
    (sampleInsert.zipCode = none → (MemStorage.createOrder emptyStore "a" 0 sampleInsert).1.zipCode = none) ∧
    (sampleInsert.modelFileName = none → (MemStorage.createOrder emptyStore "a" 0 sampleInsert).1.modelFileName = none) ∧
    (sampleInsert.modelWeight = none → (MemStorage.createOrder emptyStore "a" 0 sampleInsert).1.modelWeight = none) ∧
    (sampleInsert.printTime = none → (MemStorage.createOrder emptyStore "a" 0 sampleInsert).1.printTime = none) ∧
    (sampleInsert.baseCost = none → (MemStorage.createOrder emptyStore "a" 0 sampleInsert).1.baseCost = none) ∧
    (sampleInsert.totalCost = none → (MemStorage.createOrder emptyStore "a" 0 sampleInsert).1.totalCost = none) ∧
    (sampleInsert.supportRemoval = none →
      (MemStorage.createOrder emptyStore "a" 0 sampleInsert).1.supportRemoval = some false) ∧
    (sampleInsert.supportCost = none →
      (MemStorage.createOrder emptyStore "a" 0 sampleInsert).1.supportCost = some "0.00") :=
  create_get_roundtrip emptyStore "a" 0 sampleInsert

/-- C8: `update(id, patch)` on an existing order stores and returns the
record obtained by laying exactly the patched fields over the stored one,
restamps `updatedAt` with the current time, leaves every unpatched field
and every other key unchanged; on an absent identifier it signals
not-found and stores nothing. -/
theorem updateOrder_merge_frame (st : Store) (id : String) (now : ℕ) (p : OrderPatch) :
    (st id = none → MemStorage.updateOrder st id now p = (none, st)) ∧
    (∀ ex, st id = some ex →
      ∃ u, MemStorage.updateOrder st id now p = (some u, Store.set st id u) ∧
        u.updatedAt = some now ∧
        (∀ k, k ≠ id → Store.set st id u k = st k) ∧
        (p.id = none → u.id = ex.id) ∧
        (∀ v, p.id = some v → u.id = v) ∧
        (p.customerName = none → u.customerName = ex.customerName) ∧
        (∀ v, p.customerName = some v → u.customerName = v) ∧
        (p.customerPhone = none → u.customerPhone = ex.customerPhone) ∧
        (∀ v, p.customerPhone = some v → u.customerPhone = v) ∧
        (p.deliveryMethod = none → u.deliveryMethod = ex.deliveryMethod) ∧
        (∀ v, p.deliveryMethod = some v → u.deliveryMethod = v) ∧
        (p.streetAddress = none → u.streetAddress = ex.streetAddress) ∧
        (∀ v, p.streetAddress = some v → u.streetAddress = v) ∧
        (p.city = none → u.city = ex.city) ∧
        (∀ v, p.city = some v → u.city = v) ∧
        (p.state = none → u.state = ex.state) ∧
        (∀ v, p.state = some v → u.state = v) ∧
        (p.zipCode = none → u.zipCode = ex.zipCode) ∧
        (∀ v, p.zipCode = some v → u.zipCode = v) ∧
        (p.modelFileName = none → u.modelFileName = ex.modelFileName) ∧
        (∀ v, p.modelFileName = some v → u.modelFileName = v) ∧
        (p.modelWeight = none → u.modelWeight = ex.modelWeight) ∧
        (∀ v, p.modelWeight = some v → u.modelWeight = v) ∧
        (p.printTime = none → u.printTime = ex.printTime) ∧
        (∀ v, p.printTime = some v → u.printTime = v) ∧
        (p.baseCost = none → u.baseCost = ex.baseCost) ∧
        (∀ v, p.baseCost = some v → u.baseCost = v) ∧
        (p.supportRemoval = none → u.supportRemoval = ex.supportRemoval) ∧
        (∀ v, p.supportRemoval = some v → u.supportRemoval = v) ∧
        (p.supportCost = none → u.supportCost = ex.supportCost) ∧
        (∀ v, p.supportCost = some v → u.supportCost = v) ∧
        (p.totalCost = none → u.totalCost = ex.totalCost) ∧
        (∀ v, p.totalCost = some v → u.totalCost = v) ∧
        (p.status = none → u.status = ex.status) ∧
        (∀ v, p.status = some v → u.status = v) ∧
        (p.createdAt = none → u.createdAt = ex.createdAt) ∧
        (∀ v, p.createdAt = some v → u.createdAt = v)) := by
  constructor
  · intro h
    simp [MemStorage.updateOrder, h]
  · intro ex hex
    unfold MemStorage.updateOrder
    rw [hex]
    exact ⟨_, rfl, rfl, fun k hk => by simp [Store.set, hk],
      fun h => by simp [h], fun v h => by simp [h],
      fun h => by simp [h], fun v h => by simp [h],
      fun h => by simp [h], fun v h => by simp [h],
      fun h => by simp [h], fun v h => by simp [h],
      fun h => by simp [h], fun v h => by simp [h],
      fun h => by simp [h], fun v h => by simp [h],
      fun h => by simp [h], fun v h => by simp [h],
      fun h => by simp [h], fun v h => by simp [h],
      fun h => by simp [h], fun v h => by simp [h],
      fun h => by simp [h], fun v h => by simp [h],
      fun h => by simp [h], fun v h => by simp [h],
      fun h => by simp [h], fun v h => by simp [h],
      fun h => by simp [h], fun v h => by simp [h],
      fun h => by simp [h], fun v h => by simp [h],
      fun h => by simp [h], fun v h => by simp [h],
      fun h => by simp [h], fun v h => by simp [h],
      fun h => by simp [h], fun v h => by simp [h]⟩

/-- Concrete instance of `updateOrder_merge_frame`. -/
theorem updateOrder_merge_frame_witness :
    (Store.set emptyStore "a" sampleOrder "missing" = none ∧
      MemStorage.updateOrder (Store.set emptyStore "a" sampleOrder) "missing" 7
        { city := some (some "Trenton") } =
        (none, Store.set emptyStore "a" sampleOrder)) ∧
    (Store.set emptyStore "a" sampleOrder "a" = some sampleOrder ∧
      ∃ u, MemStorage.updateOrder (Store.set emptyStore "a" sampleOrder) "a" 7
          { city := some (some "Trenton") } =
          (some u, Store.set (Store.set emptyStore "a" sampleOrder) "a" u) ∧
        u.updatedAt = some 7 ∧ u.city = some "Trenton" ∧ u.id = sampleOrder.id) := by
  have h := updateOrder_merge_frame (Store.set emptyStore "a" sampleOrder) "a" 7
    { city := some (some "Trenton") }
  have h2 := updateOrder_merge_frame (Store.set emptyStore "a" sampleOrder) "missing" 7
    { city := some (some "Trenton") }
  refine ⟨⟨by decide, h2.1 (by decide)⟩, ⟨by decide, ?_⟩⟩
  obtain ⟨u, hu, hupd, hframe, hrest⟩ := h.2 sampleOrder (by decide)
  exact ⟨u, hu, hupd, (hrest.2.2.2.2.2.2.2.2.2.2.2.1 (some "Trenton") rfl),
    hrest.1 rfl⟩

/-- C9: looking up an identifier that is not in the store yields the
not-found value rather than an error, and the GET route answers 404 with
the body message "Order not found". -/
theorem get_unknown_not_found (st : Store) (id : String) (h : st id = none) :
    MemStorage.getOrder st id = none ∧
    getOrderById st id = (404, ResponseBody.message "Order not found") := by
  constructor
  · exact h
  · simp [getOrderById, MemStorage.getOrder, h]

/-- Concrete instance of `get_unknown_not_found`. -/
theorem get_unknown_not_found_witness :
    emptyStore "missing" = none ∧
    (MemStorage.getOrder emptyStore "missing" = none ∧
      getOrderById emptyStore "missing" = (404, ResponseBody.message "Order not found")) :=
  ⟨rfl, get_unknown_not_found emptyStore "missing" rfl⟩

/-- C10: the record built by `createOrder` stores every optional field that
arrived absent or empty as null and never stores an empty string in one;
support cost falls back to "0.00", support removal to false, and the
status is "pending" no matter what the payload carried. -/
theorem createOrder_defaults (st : Store) (id : String) (now : ℕ) (ins : InsertOrder) :
    (jsTruthy ins.streetAddress = false → (MemStorage.createOrder st id now ins).1.streetAddress = none) ∧
    (MemStorage.createOrder st id now ins).1.streetAddress ≠ some "" ∧
    (jsTruthy ins.city = false → (MemStorage.createOrder st id now ins).1.city = none) ∧
    (MemStorage.createOrder st id now ins).1.city ≠ some "" ∧
    (jsTruthy ins.state = false → (MemStorage.createOrder st id now ins).1.state = none) ∧
    (MemStorage.createOrder st id now ins).1.state ≠ some "" ∧
    (jsTruthy ins.zipCode = false → (MemStorage.createOrder st id now ins).1.zipCode = none) ∧
    (MemStorage.createOrder st id now ins).1.zipCode ≠ some "" ∧
    (jsTruthy ins.modelFileName = false → (MemStorage.createOrder st id now ins).1.modelFileName = none) ∧
    (MemStorage.createOrder st id now ins).1.modelFileName ≠ some "" ∧
    (jsTruthy ins.modelWeight = false → (MemStorage.createOrder st id now ins).1.modelWeight = none) ∧
    (MemStorage.createOrder st id now ins).1.modelWeight ≠ some "" ∧
    (jsTruthy ins.printTime = false → (MemStorage.createOrder st id now ins).1.printTime = none) ∧
    (MemStorage.createOrder st id now ins).1.printTime ≠ some "" ∧
    (jsTruthy ins.baseCost = false → (MemStorage.createOrder st id now ins).1.baseCost = none) ∧
    (MemStorage.createOrder st id now ins).1.baseCost ≠ some "" ∧
    (jsTruthy ins.totalCost = false → (MemStorage.createOrder st id now ins).1.totalCost = none) ∧
    (MemStorage.createOrder st id now ins).1.totalCost ≠ some "" ∧
    (jsTruthy ins.supportCost = false →
      (MemStorage.createOrder st id now ins).1.supportCost = some "0.00") ∧
    (ins.supportRemoval = none →
      (MemStorage.createOrder st id now ins).1.supportRemoval = some false) ∧
    (MemStorage.createOrder st id now ins).1.status = some "pending" := by
  simp only [MemStorage.createOrder]
  refine ⟨?_, ?_, ?_, ?_, ?_, ?_, ?_, ?_, ?_, ?_, ?_, ?_, ?_, ?_, ?_, ?_, ?_, ?_, ?_, ?_, ?_⟩
  all_goals
    first
    | trivial
    | (intro h
       first
       | exact jsOrNull_eq_none_of_falsy _ h
       | exact congrArg some (jsOrDefault_eq_of_falsy _ _ h)
       | (rw [h]; rfl))
    | exact jsOrNull_ne_some_empty _

/-- Concrete instance of `createOrder_defaults`. -/
theorem createOrder_defaults_witness :
    (jsTruthy sampleInsert.streetAddress = false → (MemStorage.createOrder emptyStore "a" 0 sampleInsert).1.streetAddress = none) ∧
    (MemStorage.createOrder emptyStore "a" 0 sampleInsert).1.streetAddress ≠ some "" ∧
    (jsTruthy sampleInsert.city = false → (MemStorage.createOrder emptyStore "a" 0 sampleInsert).1.city = none) ∧
    (MemStorage.createOrder emptyStore "a" 0 sampleInsert).1.city ≠ some "" ∧
    (jsTruthy sampleInsert.state = false → (MemStorage.createOrder emptyStore "a" 0 sampleInsert).1.state = none) ∧
    (MemStorage.createOrder emptyStore "a" 0 sampleInsert).1.state ≠ some "" ∧
    (jsTruthy sampleInsert.zipCode = false → (MemStorage.createOrder emptyStore "a" 0 sampleInsert).1.zipCode = none) ∧
    (MemStorage.createOrder emptyStore "a" 0 sampleInsert).1.zipCode ≠ some "" ∧
    (jsTruthy sampleInsert.modelFileName = false → (MemStorage.createOrder emptyStore "a" 0 sampleInsert).1.modelFileName = none) ∧
    (MemStorage.createOrder emptyStore "a" 0 sampleInsert).1.modelFileName ≠ some "" ∧
    (jsTruthy sampleInsert.modelWeight = false → (MemStorage.createOrder emptyStore "a" 0 sampleInsert).1.modelWeight = none) ∧
    (MemStorage.createOrder emptyStore "a" 0 sampleInsert).1.modelWeight ≠ some "" ∧
    (jsTruthy sampleInsert.printTime = false → (MemStorage.createOrder emptyStore "a" 0 sampleInsert).1.printTime = none) ∧
    (MemStorage.createOrder emptyStore "a" 0 sampleInsert).1.printTime ≠ some "" ∧
    (jsTruthy sampleInsert.baseCost = false → (MemStorage.createOrder emptyStore "a" 0 sampleInsert).1.baseCost = none) ∧
    (MemStorage.createOrder emptyStore "a" 0 sampleInsert).1.baseCost ≠ some "" ∧
    (jsTruthy sampleInsert.totalCost = false → (MemStorage.createOrder emptyStore "a" 0 sampleInsert).1.totalCost = none) ∧
    (MemStorage.createOrder emptyStore "a" 0 sampleInsert).1.totalCost ≠ some "" ∧
    (jsTruthy sampleInsert.supportCost = false →
      (MemStorage.createOrder emptyStore "a" 0 sampleInsert).1.supportCost = some "0.00") ∧
    (sampleInsert.supportRemoval = none →
      (MemStorage.createOrder emptyStore "a" 0 sampleInsert).1.supportRemoval = some false) ∧
    (MemStorage.createOrder emptyStore "a" 0 sampleInsert).1.status = some "pending" :=
  createOrder_defaults emptyStore "a" 0 sampleInsert

/-- C6 fails as stated: `updateOrder` spreads the patch over the stored
record, so a patch that itself carries an `id` field overwrites the
identifier — the record retrieved under key "a" afterwards carries
identifier "b". -/
theorem update_can_change_id_cex :
    (MemStorage.getOrder
        (MemStorage.updateOrder (Store.set emptyStore "a" sampleOrder) "a" 7
          { id := some "b" }).2 "a").map Order.id = some "b" ∧
    ("b" : String) ≠ "a" := by decide

/-- C6 amended: as long as no patch in the sequence carries the `id` field
itself, the record retrievable under `id` keeps `id` as its identifier
through any sequence of updates. -/
theorem id_immutable_without_id_patch (st : Store) (id : String)
    (l : List (ℕ × OrderPatch)) (hp : ∀ u ∈ l, u.2.id = none)
    (hs : (st id).map Order.id = some id) :
    (applyUpdates st id l id).map Order.id = some id := by
  induction l generalizing st with
  | nil => exact hs
  | cons u rest ih =>
    simp only [applyUpdates]
    apply ih _ (fun x hx => hp x (List.mem_cons_of_mem u hx))
    obtain ⟨ex, hex⟩ : ∃ ex, st id = some ex := by
      cases hst : st id with
      | none => rw [hst] at hs; simp at hs
      | some o => exact ⟨o, rfl⟩
    have hexid : ex.id = id := by rw [hex] at hs; simpa using hs
    unfold MemStorage.updateOrder
    rw [hex]
    simp [Store.set, hp u (List.mem_cons_self u rest), hexid]

/-- Concrete instance of `id_immutable_without_id_patch`. -/
theorem id_immutable_without_id_patch_witness :
    (∀ u ∈ [(5, ({ customerName := some "Jane" } : OrderPatch))], u.2.id = none) ∧
    ((Store.set emptyStore "a" sampleOrder "a").map Order.id = some "a") ∧
    ((applyUpdates (Store.set emptyStore "a" sampleOrder) "a"
        [(5, { customerName := some "Jane" })] "a").map Order.id = some "a") :=
  ⟨by decide, by decide,
    id_immutable_without_id_patch (Store.set emptyStore "a" sampleOrder) "a"
      [(5, { customerName := some "Jane" })] (by decide) (by decide)⟩

/-- C2 fails as stated against the server: POST /api/orders validates with
`insertOrderSchema`, which has no conditional delivery-address rule, so a
delivery payload with an empty street address is accepted — the response is
200 and an order is persisted, not a 400 with nothing stored. -/
theorem delivery_rule_server_accepts_cex :
    (postOrders emptyStore "id1" 0 c2payload none true).1.1 = 200 ∧
    ((postOrders emptyStore "id1" 0 c2payload none true).2 "id1").isSome = true := by
  decide

/-- C2 amended: the conditional delivery-address rule lives in the client
form schema, not in the server submission path: client-side, a delivery
form with falsy street address fails validation with the address message
while the identical meetup form passes; the server-side insert schema
accepts the delivery payload with an empty street address. -/
theorem delivery_rule_client_side (name phone : String)
    (street cty stt zip : Option String) (sr : Bool)
    (hname : 1 ≤ name.length) (hphone : 10 ≤ phone.length)
    (hstreet : jsTruthy street = false) :
    orderFormSchema ⟨name, phone, "delivery", street, cty, stt, zip, sr⟩ =
      .error ["Address information is required for delivery"] ∧
    orderFormSchema ⟨name, phone, "meetup", street, cty, stt, zip, sr⟩ =
      .ok ⟨name, phone, "meetup", street, cty, stt, zip, sr⟩ ∧
    insertOrderSchema
        { customerName := some name, customerPhone := some phone,
          deliveryMethod := some "delivery", streetAddress := street,
          city := cty, state := stt, zipCode := zip } sr =
      .ok { customerName := name, customerPhone := phone, deliveryMethod := "delivery",
            streetAddress := street, city := cty, state := stt, zipCode := zip,
            modelFileName := none, modelWeight := none, printTime := none,
            baseCost := none, supportRemoval := some sr, supportCost := some "0.00",
            totalCost := none, status := none } := by
  have h1 : ¬(name.length < 1) := by omega
  have h2 : ¬(phone.length < 10) := by omega
  refine ⟨?_, ?_, ?_⟩
  · simp [orderFormSchema, h1, h2, hstreet]
  · simp [orderFormSchema, h1, h2]
  · simp [insertOrderSchema, h1, h2]

/-- Concrete instance of `delivery_rule_client_side`. -/
theorem delivery_rule_client_side_witness :
    (1 ≤ ("John Doe" : String).length) ∧ (10 ≤ ("5551234567" : String).length) ∧
    (jsTruthy (some "") = false) ∧
    (orderFormSchema ⟨"John Doe", "5551234567", "delivery", some "", some "Monroe",
        some "NJ", some "08831", false⟩ =
      .error ["Address information is required for delivery"] ∧
    orderFormSchema ⟨"John Doe", "5551234567", "meetup", some "", some "Monroe",
        some "NJ", some "08831", false⟩ =
      .ok ⟨"John Doe", "5551234567", "meetup", some "", some "Monroe",
        some "NJ", some "08831", false⟩ ∧
    insertOrderSchema
        { customerName := some "John Doe", customerPhone := some "5551234567",
          deliveryMethod := some "delivery", streetAddress := some "",
          city := some "Monroe", state := some "NJ", zipCode := some "08831" } false =
      .ok { customerName := "John Doe", customerPhone := "5551234567",
            deliveryMethod := "delivery", streetAddress := some "", city := some "Monroe",
            state := some "NJ", zipCode := some "08831", modelFileName := none,
            modelWeight := none, printTime := none, baseCost := none,
            supportRemoval := some false, supportCost := some "0.00",
            totalCost := none, status := none }) :=
  ⟨by decide, by decide, by decide,
    delivery_rule_client_side "John Doe" "5551234567" (some "") (some "Monroe")
      (some "NJ") (some "08831") false (by decide) (by decide) (by decide)⟩

/-- C7: once validation succeeds, the response and the stored state of
POST /api/orders do not depend on the mail collaborator at all — an email
failure after the store write still yields a 200 carrying exactly the
record persisted under the fresh identifier. -/
theorem notification_failure_preserves_create (st : Store) (freshId : String)
    (now : ℕ) (d : RawOrderData) (mf : Option UploadedFile) (emailOk : Bool)
    (v : InsertOrder)
    (hv : insertOrderSchema d (d.supportRemoval == some "true") = .ok v) :
    postOrders st freshId now d mf emailOk = postOrders st freshId now d mf true ∧
    (∃ o, (postOrders st freshId now d mf emailOk).1 = (200, .order o) ∧
      (postOrders st freshId now d mf emailOk).2 freshId = some o) := by
  constructor
  · unfold postOrders
    rw [hv]
    cases he : sendOrderEmail emailOk <;> cases ht : sendOrderEmail true <;> rfl
  · unfold postOrders
    rw [hv]
    cases he : sendOrderEmail emailOk <;>
      exact ⟨_, rfl, by simp [MemStorage.createOrder, Store.set]⟩

/-- Concrete instance of `notification_failure_preserves_create`, with the
email collaborator failing. -/
theorem notification_failure_preserves_create_witness :
    insertOrderSchema c2payload (c2payload.supportRemoval == some "true") =
      .ok { customerName := "John Doe", customerPhone := "5551234567",
            deliveryMethod := "delivery", streetAddress := some "", city := none,
            state := none, zipCode := none, modelFileName := none, modelWeight := none,
            printTime := none, baseCost := none, supportRemoval := some false,
            supportCost := some "0.00", totalCost := none, status := none } ∧
    (postOrders emptyStore "id1" 0 c2payload none false =
        postOrders emptyStore "id1" 0 c2payload none true ∧
      (∃ o, (postOrders emptyStore "id1" 0 c2payload none false).1 = (200, .order o) ∧
        (postOrders emptyStore "id1" 0 c2payload none false).2 "id1" = some o)) :=
  ⟨by rfl,
    notification_failure_preserves_create emptyStore "id1" 0 c2payload none false
      _ (by rfl)⟩

/-- C3: for every positive file size, the estimator computes the piecewise
weight law of the specification (the returned weight field being its
two-decimal rounding) and formats `max 30 (weight * 1.5 + size * 20)`
minutes as hours and minutes by integer floor division and modulo 60. -/
theorem estimator_weight_printTime_spec (fileSize : ℕ) (h : 0 < fileSize) :
    (analyze3DModel fileSize).weight = round2 (specWeight ((fileSize : ℚ) / 1048576)) ∧
    (analyze3DModel fileSize).printTime = specPrintTimeString ((fileSize : ℚ) / 1048576) := by
  rw [analyze3DModel_eq]
  exact ⟨rfl, rfl⟩

/-- Concrete instance of `estimator_weight_printTime_spec` at 2 MB. -/
theorem estimator_weight_printTime_spec_witness :
    0 < 2097152 ∧
    ((analyze3DModel 2097152).weight = round2 (specWeight ((2097152 : ℚ) / 1048576)) ∧
     (analyze3DModel 2097152).printTime = specPrintTimeString ((2097152 : ℚ) / 1048576)) :=
  ⟨by decide, estimator_weight_printTime_spec 2097152 (by decide)⟩

/-- C5 fails as stated: at 262968 bytes the unrounded weight is about
5.0157 grams, so the rounded weight is 5.02; the code computes the base
cost from the unrounded weight, giving 1.25, while rounding the returned
weight times 0.25 gives 1.26. -/
theorem baseCost_rounded_weight_cex :
    (analyze3DModel 262968).baseCost = 5/4 ∧
    round2 ((analyze3DModel 262968).weight * 0.25) = 63/50 ∧
    ((5 : ℚ)/4) ≠ 63/50 := by
  refine ⟨?_, ?_, by norm_num⟩
  · simp only [analyze3DModel, round2]
    norm_num [max_def]
  · simp only [analyze3DModel, round2]
    norm_num [max_def]

/-- C5 amended: the returned base cost is the two-decimal rounding of the
unrounded piecewise weight times 0.25, which can differ from rounding the
returned two-decimal weight times 0.25. -/
theorem baseCost_unrounded_weight (n : ℕ) (h : 0 < n) :
    (analyze3DModel n).baseCost = round2 (specWeight ((n : ℚ) / 1048576) * 0.25) := by
  rw [analyze3DModel_eq]

/-- Concrete instance of `baseCost_unrounded_weight`. -/
theorem baseCost_unrounded_weight_witness :
    0 < 2097152 ∧
    (analyze3DModel 2097152).baseCost = round2 (specWeight ((2097152 : ℚ) / 1048576) * 0.25) :=
  ⟨by decide, baseCost_unrounded_weight 2097152 (by decide)⟩

/-! ## Cost-law lemmas and the C1 claim -/

lemma jsOrNull_some_of_ne (s : String) (h : s ≠ "") : jsOrNull (some s) = some s := by
  simp [jsOrNull, h]

lemma specWeight_nonneg (s : ℚ) : 0 ≤ specWeight s := by
  unfold specWeight
  split_ifs with h1 h2
  · exact le_trans (by norm_num) (le_max_left 5 (s * 20))
  · nlinarith [h2.1]
  · push_neg at h2
    have h5 : 5 ≤ s := h2 (not_lt.mp h1)
    nlinarith

lemma analyze3DModel_baseCost_cents (n : ℕ) :
    ∃ k : ℕ, (analyze3DModel n).baseCost = (k : ℚ) / 100 := by
  rw [analyze3DModel_eq]
  have hw := specWeight_nonneg ((n : ℚ) / 1048576)
  unfold round2
  have h0 : 0 ≤ ⌊specWeight ((n : ℚ) / 1048576) * 0.25 * 100 + 1/2⌋ := by
    apply Int.le_floor.mpr
    push_cast
    nlinarith
  refine ⟨(⌊specWeight ((n : ℚ) / 1048576) * 0.25 * 100 + 1/2⌋).toNat, ?_⟩
  have hc : (((⌊specWeight ((n : ℚ) / 1048576) * 0.25 * 100 + 1/2⌋).toNat : ℕ) : ℚ) =
      ((⌊specWeight ((n : ℚ) / 1048576) * 0.25 * 100 + 1/2⌋ : ℤ) : ℚ) := by
    exact_mod_cast congrArg (fun z : ℤ => (z : ℚ)) (Int.toNat_of_nonneg h0)
  rw [hc]

/-- C1 fails as stated: when the client supplies the pricing triple, the
handler stores the client totals verbatim — a payload claiming base cost
8.75 and total 999.99 with support removal off is persisted as is, and the
stored record violates the total-cost law while the endpoint answers
200. -/
theorem totalCost_law_client_override_cex :
    ((postOrders emptyStore "oid" 0 c1payload (some ⟨"model.stl", 2097152⟩) true).2 "oid").map
        costLawCheck = some false ∧
    (postOrders emptyStore "oid" 0 c1payload (some ⟨"model.stl", 2097152⟩) true).1.1 = 200 := by
  decide

/-- C1 amended: the total-cost law does hold for every order created
through the fallback branch — a model file present and the client pricing
triple not fully supplied — where the handler computes the pricing itself:
the persisted total-cost string reads as exactly the base-cost string plus
five dollars when support removal was requested and zero otherwise. -/
theorem totalCost_law_fallback (st : Store) (freshId : String) (now : ℕ)
    (d : RawOrderData) (f : UploadedFile) (emailOk : Bool) (v : InsertOrder)
    (hv : insertOrderSchema d (d.supportRemoval == some "true") = .ok v)
    (hnc : (jsTruthy d.modelWeight && jsTruthy d.printTime && jsTruthy d.baseCost) = false) :
    ∃ o, postOrders st freshId now d (some f) emailOk =
        ((200, .order o), Store.set st freshId o) ∧
      costLawCheck o = true := by
  unfold postOrders
  rw [hv]
  simp only [hnc, Bool.false_eq_true, if_false]
  obtain ⟨kB, hkB⟩ := analyze3DModel_baseCost_cents f.size
  cases he : sendOrderEmail emailOk <;>
    refine ⟨_, ⟨rfl, ?_⟩⟩ <;>
    cases hb : jsOrFalse v.supportRemoval <;>
    simp only [costLawCheck, MemStorage.createOrder, hb, Bool.false_eq_true, if_false, if_true,
      jsOrNull_some_of_ne _ (jsNumToString_ne_empty _)]
  case error.false =>
    have hT : (analyze3DModel f.size).baseCost + 0.00 = ((kB : ℕ) : ℚ) / 100 := by
      rw [hkB]; norm_num
    rw [hT, hkB]
    simp only [Option.some_bind]
    simp only [parseDecCents_jsNumToString]
    simp
  case error.true =>
    have hT : (analyze3DModel f.size).baseCost + 5.00 = (((kB + 500 : ℕ)) : ℚ) / 100 := by
      rw [hkB]; push_cast; ring
    rw [hT, hkB]
    simp only [Option.some_bind]
    simp only [parseDecCents_jsNumToString]
    simp
  case ok.false =>
    have hT : (analyze3DModel f.size).baseCost + 0.00 = ((kB : ℕ) : ℚ) / 100 := by
      rw [hkB]; norm_num
    rw [hT, hkB]
    simp only [Option.some_bind]
    simp only [parseDecCents_jsNumToString]
    simp
  case ok.true =>
    have hT : (analyze3DModel f.size).baseCost + 5.00 = (((kB + 500 : ℕ)) : ℚ) / 100 := by
      rw [hkB]; push_cast; ring
    rw [hT, hkB]
    simp only [Option.some_bind]
    simp only [parseDecCents_jsNumToString]
    simp

/-- Concrete instance of `totalCost_law_fallback`: a submission without
client pricing and with a 2 MB file. -/
theorem totalCost_law_fallback_witness :
    insertOrderSchema c2payload (c2payload.supportRemoval == some "true") =
      .ok { customerName := "John Doe", customerPhone := "5551234567",
            deliveryMethod := "delivery", streetAddress := some "", city := none,
            state := none, zipCode := none, modelFileName := none, modelWeight := none,
            printTime := none, baseCost := none, supportRemoval := some false,
            supportCost := some "0.00", totalCost := none, status := none } ∧
    ((jsTruthy c2payload.modelWeight && jsTruthy c2payload.printTime &&
        jsTruthy c2payload.baseCost) = false) ∧
    (∃ o, postOrders emptyStore "id1" 0 c2payload (some ⟨"model.stl", 2097152⟩) true =
        ((200, .order o), Store.set emptyStore "id1" o) ∧
      costLawCheck o = true) :=
  ⟨by rfl, by decide,
    totalCost_law_fallback emptyStore "id1" 0 c2payload ⟨"model.stl", 2097152⟩ true
      _ (by rfl) (by decide)⟩

end PointZero
